import Mathlib

/-!
Shallow embedding of the deterministic geometry of
`src/visa_photo_processor.py` (Schengen visa photo processor):
crop planning (`crop_and_resize`), dimension normalization (the final
`resize` call), the 4x6 print-sheet layout (`create_4x6_print`), and the
output-path computation of `process_photo`.

Python floats are modelled by exact rationals, Python `int()` by
truncation toward zero, and Python `//` by `Int.fdiv` (floor division).
-/

namespace VisaPhoto

/-- Python `int()` applied to a float: truncation toward zero. -/
def pyInt (q : ℚ) : ℤ := if 0 ≤ q then ⌊q⌋ else ⌈q⌉

/-- Embedding of `self.target_width_px = int((35 / 25.4) * 300)` (line 27). -/
def target_width_px : ℤ := pyInt ((35 / (254 / 10)) * 300)

/-- Embedding of `self.target_height_px = int((45 / 25.4) * 300)` (line 28). -/
def target_height_px : ℤ := pyInt ((45 / (254 / 10)) * 300)

/-- Embedding of `self.print_width_px = 6 * 300` (line 31). -/
def print_width_px : ℤ := 6 * 300

/-- Embedding of `self.print_height_px = 4 * 300` (line 32). -/
def print_height_px : ℤ := 4 * 300

/-- Embedding of `target_aspect_ratio = self.target_width_px /
self.target_height_px` (line 83). -/
def targetAspect : ℚ := (target_width_px : ℚ) / (target_height_px : ℚ)

/-- A detected face bounding box `(x, y, w, h)` in source pixels. -/
structure FaceBox where
  x : ℤ
  y : ℤ
  w : ℤ
  h : ℤ
deriving DecidableEq

/-- A rectangle `(x0, y0, x1, y1)` in pixel coordinates, used both for
crop boxes and for photo placements on the print sheet. -/
structure Rect where
  x0 : ℤ
  y0 : ℤ
  x1 : ℤ
  y1 : ℤ
deriving DecidableEq

/-- Embedding of `face_center_x = x + w // 2` (line 87). -/
def faceCenterX (x w : ℤ) : ℤ := x + Int.fdiv w 2

/-- Embedding of `face_center_y = y + h // 2` (line 88). -/
def faceCenterY (y h : ℤ) : ℤ := y + Int.fdiv h 2

/-- Embedding of `estimated_head_height = h * 1.3` (line 95). -/
def estimatedHeadHeight (h : ℤ) : ℚ := (h : ℚ) * (13 / 10)

/-- Embedding of `photo_height = estimated_head_height /
head_to_photo_ratio` with `head_to_photo_ratio = 0.70` (lines 92, 98). -/
def photoHeightOf (h : ℤ) : ℚ := estimatedHeadHeight h / (7 / 10)

/-- Embedding of `photo_width = photo_height * target_aspect_ratio`
(line 99). -/
def photoWidthOf (h : ℤ) : ℚ := photoHeightOf h * targetAspect

/-- Embedding of `face_offset_y = h * 0.3` (line 103). -/
def faceOffsetY (h : ℤ) : ℚ := (h : ℚ) * (3 / 10)

/-- Embedding of `crop_center_y = face_center_y - face_offset_y`
(line 104). -/
def cropCenterY (y h : ℤ) : ℚ := (faceCenterY y h : ℚ) - faceOffsetY h

/-- Face-anchored branch of `crop_and_resize` (lines 85-128).  The
scale-down branch (lines 116-125) reads the name `face_position_ratio`,
which is defined nowhere in the program, so reaching it raises a Python
`NameError`; the embedding returns an error in that case. -/
def faceCrop (width height : ℤ) (fb : FaceBox) : Except String Rect :=
  let photoH : ℚ := photoHeightOf fb.h
  let photoW : ℚ := photoWidthOf fb.h
  let cropY0 : ℚ := cropCenterY fb.y fb.h - photoH / 2
  let cropX0 : ℚ := (faceCenterX fb.x fb.w : ℚ) - photoW / 2
  let cropX : ℚ := max 0 (min cropX0 ((width : ℚ) - photoW))
  let cropY : ℚ := max 0 (min cropY0 ((height : ℚ) - photoH))
  if photoW > (width : ℚ) ∨ photoH > (height : ℚ) then
    Except.error "NameError: name face_position_ratio is not defined"
  else
    Except.ok ⟨pyInt cropX, pyInt cropY, pyInt (cropX + photoW), pyInt (cropY + photoH)⟩

/-- Center-fallback branch of `crop_and_resize` (lines 130-142). -/
def centerCrop (width height : ℤ) : Rect :=
  if (width : ℚ) / (height : ℚ) > targetAspect then
    let newW : ℤ := pyInt ((height : ℚ) * targetAspect)
    let cx : ℤ := Int.fdiv (width - newW) 2
    ⟨cx, 0, cx + newW, height⟩
  else
    let newH : ℤ := pyInt ((width : ℚ) / targetAspect)
    let cy : ℤ := Int.fdiv (height - newH) 4
    ⟨0, cy, width, cy + newH⟩

/-- Embedding of `cropped.resize((self.target_width_px,
self.target_height_px), Image.LANCZOS)` (line 155): PIL returns an image
of exactly the requested size, whatever the size of the cropped input. -/
def resizeDims (_cropW _cropH tw th : ℤ) : ℤ × ℤ := (tw, th)

/-- Embedding of `crop_and_resize` (lines 80-157), tracking the crop box
and the pixel dimensions of the returned (resized) image. -/
def crop_and_resize (width height : ℤ) (fb : Option FaceBox) :
    Except String (Rect × (ℤ × ℤ)) :=
  match fb with
  | some f =>
      (faceCrop width height f).map fun box =>
        (box, resizeDims (box.x1 - box.x0) (box.y1 - box.y0) target_width_px target_height_px)
  | none =>
      let box := centerCrop width height
      Except.ok (box, resizeDims (box.x1 - box.x0) (box.y1 - box.y0) target_width_px target_height_px)

/-- State of a `VisaPhotoProcessor` object: the four pixel-dimension
attributes set in `__init__` and read by `create_4x6_print`. -/
structure VisaPhotoProcessor where
  target_width_px : ℤ
  target_height_px : ℤ
  print_width_px : ℤ
  print_height_px : ℤ
deriving DecidableEq

/-- The processor state produced by `__init__` (lines 20-32). -/
def VisaPhotoProcessor.init : VisaPhotoProcessor :=
  ⟨VisaPhoto.target_width_px, VisaPhoto.target_height_px,
   VisaPhoto.print_width_px, VisaPhoto.print_height_px⟩

/-- A produced print sheet: its pixel dimensions and the rectangles at
which the visa photo is pasted. -/
structure PrintSheet where
  sheetW : ℤ
  sheetH : ℤ
  placements : List Rect
deriving DecidableEq

/-- Embedding of `create_4x6_print` (lines 191-246).  The layout reads
only the processor attributes; the pasted photo's own dimensions are
never consulted.  The function contains no failure path: it
unconditionally builds the sheet and pastes at the computed offsets
(PIL clips any out-of-bounds paste). -/
def create_4x6_print (p : VisaPhotoProcessor) (_photoW _photoH : ℤ) :
    Except String PrintSheet :=
  let photos_per_row : ℤ := 3
  let photos_per_col : ℤ := 2
  let photo_margin : ℤ := 10
  let cell_width : ℤ := p.target_width_px + 2 * photo_margin
  let cell_height : ℤ := p.target_height_px + 2 * photo_margin
  let total_grid_width : ℤ := photos_per_row * cell_width
  let total_grid_height : ℤ := photos_per_col * cell_height
  let start_x : ℤ := Int.fdiv (p.print_width_px - total_grid_width) 2
  let start_y : ℤ := Int.fdiv (p.print_height_px - total_grid_height) 2
  Except.ok
    { sheetW := p.print_width_px
      sheetH := p.print_height_px
      placements :=
        (List.range 2).flatMap fun row =>
          (List.range 3).map fun col =>
            let cell_x : ℤ := start_x + (col : ℤ) * cell_width
            let cell_y : ℤ := start_y + (row : ℤ) * cell_height
            { x0 := cell_x + photo_margin
              y0 := cell_y + photo_margin
              x1 := cell_x + photo_margin + p.target_width_px
              y1 := cell_y + photo_margin + p.target_height_px } }

/-- Two placed rectangles do not overlap. -/
def rectDisjoint (a b : Rect) : Prop :=
  a.x1 ≤ b.x0 ∨ b.x1 ≤ a.x0 ∨ a.y1 ≤ b.y0 ∨ b.y1 ≤ a.y0

instance : DecidableRel rectDisjoint := fun a b => by
  unfold rectDisjoint; exact inferInstance

/-- A rectangle lies fully inside the sheet `[0, sw] x [0, sh]`. -/
def rectInside (r : Rect) (sw sh : ℤ) : Prop :=
  0 ≤ r.x0 ∧ 0 ≤ r.y0 ∧ r.x1 ≤ sw ∧ r.y1 ≤ sh

instance : ∀ r sw sh, Decidable (rectInside r sw sh) := fun r sw sh => by
  unfold rectInside; exact inferInstance

/-- The characters of the Python literal `'.jpg'`. -/
def jpgTail : List Char := ['.', 'j', 'p', 'g']

/-- The characters of the Python literal `'_4x6_print.jpg'`. -/
def printTail : List Char :=
  ['_', '4', 'x', '6', '_', 'p', 'r', 'i', 'n', 't', '.', 'j', 'p', 'g']

/-- Embedding of Python `output_path.replace('.jpg', '_4x6_print.jpg')`
(line 291): every occurrence of `.jpg` is replaced, scanning left to
right without rescanning the replacement text. -/
def replaceJpg : List Char → List Char
  | [] => []
  | c :: rest =>
    if c = '.' ∧ rest.take 3 = ['j', 'p', 'g'] then
      printTail ++ replaceJpg (rest.drop 3)
    else
      c :: replaceJpg rest
termination_by l => l.length
decreasing_by
  · simp only [List.length_drop, List.length_cons]; omega
  · simp only [List.length_cons]; omega

/-- Whether `.jpg` occurs in a character list (helper for stating when
`replaceJpg` leaves its input unchanged). -/
def hasJpg : List Char → Bool
  | [] => false
  | c :: rest =>
    if c = '.' ∧ rest.take 3 = ['j', 'p', 'g'] then true else hasJpg rest

/-- The file paths written by `process_photo`, in order (lines 284-292):
the primary photo is saved at `output_path` first; if `create_print` is
set, the print sheet is then saved at
`output_path.replace('.jpg', '_4x6_print.jpg')`. -/
def process_photo_saves (output_path : List Char) (create_print : Bool) :
    List (List Char) :=
  if create_print then [output_path, replaceJpg output_path] else [output_path]

/-! ### Helper lemmas about the constants and the rational arithmetic -/

theorem target_width_px_eq : target_width_px = 413 := by
  rw [target_width_px, pyInt, if_pos (by norm_num)]
  norm_num

theorem target_height_px_eq : target_height_px = 531 := by
  rw [target_height_px, pyInt, if_pos (by norm_num)]
  norm_num

theorem targetAspect_eq : targetAspect = 413 / 531 := by
  rw [targetAspect, target_width_px_eq, target_height_px_eq]
  norm_num

theorem targetAspect_eq79 : targetAspect = 7 / 9 := by
  rw [targetAspect_eq]; norm_num

theorem photoHeightOf_eq (h : ℤ) : photoHeightOf h = 13 * h / 7 := by
  rw [photoHeightOf, estimatedHeadHeight]; ring

theorem photoWidthOf_eq (h : ℤ) : photoWidthOf h = 13 * h / 9 := by
  rw [photoWidthOf, photoHeightOf_eq, targetAspect_eq79]; ring

theorem pyInt_of_nonneg {q : ℚ} (hq : 0 ≤ q) : pyInt q = ⌊q⌋ := by
  rw [pyInt, if_pos hq]

theorem pyInt_intCast_div (a b : ℤ) (ha : 0 ≤ a) (hb : 0 < b) :
    pyInt ((a : ℚ) / (b : ℚ)) = Int.fdiv a b := by
  have ha' : (0 : ℚ) ≤ (a : ℚ) := by exact_mod_cast ha
  have hb' : (0 : ℚ) ≤ (b : ℚ) := by exact_mod_cast hb.le
  rw [pyInt_of_nonneg (div_nonneg ha' hb'), Int.fdiv_eq_ediv _ hb.le]
  lift b to ℕ using hb.le with b'
  exact_mod_cast Rat.floor_intCast_div_natCast a b'

theorem init_eq : VisaPhotoProcessor.init = ⟨413, 531, 1800, 1200⟩ := by
  unfold VisaPhotoProcessor.init
  rw [target_width_px_eq, target_height_px_eq]
  decide

/-! ### Claim theorems -/

/-- C1: the claim says the scale-down branch of `crop_and_resize`
activates on a 300x300 image whose ideal face-anchored crop exceeds the
source and still returns a usable crop region.  In the code that branch
reads the undefined name `face_position_ratio` (line 123), so the call
raises `NameError` and returns nothing: the code contradicts the
documented intent.  This theorem evaluates the embedding at such a
failing input. -/
theorem C1_scale_down_name_error :
    crop_and_resize 300 300 (some ⟨50, 50, 200, 200⟩) =
      Except.error "NameError: name face_position_ratio is not defined" := by
  have hfc : faceCrop 300 300 ⟨50, 50, 200, 200⟩ =
      Except.error "NameError: name face_position_ratio is not defined" := by
    simp only [faceCrop, photoWidthOf_eq, photoHeightOf_eq]
    norm_num
  simp only [crop_and_resize, hfc, Except.map]

/-- C10: `create_4x6_print` always succeeds with a sheet whose pixel
dimensions are exactly the configured print constants (1800x1200 for the
initial processor), independent of the input photo's dimensions and of
whether the photos fit on the sheet. -/
theorem C10_sheet_size :
    (∀ (p : VisaPhotoProcessor) (photoW photoH : ℤ), ∃ s : PrintSheet,
        create_4x6_print p photoW photoH = Except.ok s ∧
        s.sheetW = p.print_width_px ∧ s.sheetH = p.print_height_px) ∧
    VisaPhotoProcessor.init.print_width_px = 1800 ∧
    VisaPhotoProcessor.init.print_height_px = 1200 := by
  exact ⟨fun p photoW photoH => ⟨_, rfl, rfl, rfl⟩, by decide, by decide⟩

/-- C3 counterexample: with a processor state whose photo width makes the
grid wider than the sheet (3 * (2000 + 2*10) = 6060 > 1800), the claim
says `create_4x6_print` fails with a layout error; in fact it succeeds,
and one of its placements sticks out of the sheet. -/
theorem C3_counterexample :
    3 * ((⟨2000, 531, 1800, 1200⟩ : VisaPhotoProcessor).target_width_px + 2 * 10) >
      (⟨2000, 531, 1800, 1200⟩ : VisaPhotoProcessor).print_width_px ∧
    (create_4x6_print ⟨2000, 531, 1800, 1200⟩ 413 531).isOk = true ∧
    ∃ s : PrintSheet, create_4x6_print ⟨2000, 531, 1800, 1200⟩ 413 531 = Except.ok s ∧
      ∃ r ∈ s.placements, ¬ rectInside r 1800 1200 := by
  refine ⟨by decide, by decide, _, rfl, ?_⟩
  decide

/-- C3 amended: `create_4x6_print` performs no grid-fit check and never
reports a layout error; with the constants set by `__init__` the grid
(3 * 433 = 1299 by 2 * 551 = 1102) does fit the 1800x1200 sheet, so no
failure can arise there, and the print sheet is only written after the
primary photo (the first saved path is the primary output path). -/
theorem C3_amended :
    (∀ (p : VisaPhotoProcessor) (photoW photoH : ℤ),
        (create_4x6_print p photoW photoH).isOk = true) ∧
    3 * (VisaPhotoProcessor.init.target_width_px + 2 * 10) ≤
      VisaPhotoProcessor.init.print_width_px ∧
    2 * (VisaPhotoProcessor.init.target_height_px + 2 * 10) ≤
      VisaPhotoProcessor.init.print_height_px ∧
    (∀ path : List Char, (process_photo_saves path true).head? = some path) := by
  refine ⟨fun p photoW photoH => rfl, ?_, ?_, fun path => rfl⟩
  · rw [init_eq]; decide
  · rw [init_eq]; decide

/-- C8: with the initial processor constants (413x531 photo, 1800x1200
sheet, 2 rows x 3 columns, margin 10), `create_4x6_print` places exactly
six pairwise non-overlapping photo rectangles, all inside the sheet,
with the grid centered at `start = ((SW - grid_w) // 2, (SH - grid_h) // 2)
= (250, 49)` and each photo at its cell origin plus `(10, 10)`. -/
theorem C8_print_layout :
    ∃ s : PrintSheet, create_4x6_print VisaPhotoProcessor.init 413 531 = Except.ok s ∧
      s.placements.length = 6 ∧
      List.Pairwise rectDisjoint s.placements ∧
      (∀ r ∈ s.placements, rectInside r 1800 1200) ∧
      s.placements =
        (List.range 2).flatMap (fun row => (List.range 3).map (fun col =>
          ⟨250 + (col : ℤ) * 433 + 10, 49 + (row : ℤ) * 551 + 10,
           250 + (col : ℤ) * 433 + 10 + 413, 49 + (row : ℤ) * 551 + 10 + 531⟩)) ∧
      (433 : ℤ) = 413 + 2 * 10 ∧ (551 : ℤ) = 531 + 2 * 10 ∧
      (250 : ℤ) = Int.fdiv (1800 - 3 * 433) 2 ∧
      (49 : ℤ) = Int.fdiv (1200 - 2 * 551) 2 := by
  rw [init_eq]
  refine ⟨_, rfl, ?_, ?_, ?_, ?_, ?_, ?_, ?_, ?_⟩ <;> decide

/-- C7: the final resize step always yields exactly the configured
target dimensions (413x531) for any input crop of size at least 1x1, and
every successful run of `crop_and_resize` reports those dimensions. -/
theorem C7_resize_dims :
    (∀ cropW cropH : ℤ, 1 ≤ cropW → 1 ≤ cropH →
        resizeDims cropW cropH VisaPhoto.target_width_px VisaPhoto.target_height_px =
          (413, 531)) ∧
    (∀ (width height : ℤ) (fb : Option FaceBox) (res : Rect × (ℤ × ℤ)),
        crop_and_resize width height fb = Except.ok res → res.2 = (413, 531)) := by
  constructor
  · intro cw ch h1 h2
    rw [resizeDims, target_width_px_eq, target_height_px_eq]
  · intro width height fb res h
    cases fb with
    | none =>
        simp only [crop_and_resize] at h
        injection h with h'
        rw [← h', resizeDims, target_width_px_eq, target_height_px_eq]
    | some f =>
        simp only [crop_and_resize] at h
        cases hfc : faceCrop width height f with
        | error e => rw [hfc] at h; simp [Except.map] at h
        | ok b =>
            rw [hfc] at h
            simp only [Except.map] at h
            injection h with h'
            rw [← h', resizeDims, target_width_px_eq, target_height_px_eq]

/-- C7 witness: the resize step at a concrete 5x7 crop. -/
theorem C7_resize_dims_witness :
    resizeDims 5 7 VisaPhoto.target_width_px VisaPhoto.target_height_px = (413, 531) :=
  C7_resize_dims.1 5 7 (by decide) (by decide)

/-- C5 counterexample: on face box height 250 the code's
`photo_width` is exactly 3250/9 = 361.11..., not approximately 362.1 as
the claim states (off by 89/90, far beyond the one-decimal precision the
scenario uses). -/
theorem C5_counterexample :
    photoWidthOf 250 = 3250 / 9 ∧ ¬ |photoWidthOf 250 - 3621 / 10| < 1 / 20 := by
  have h1 : photoWidthOf 250 = 3250 / 9 := by rw [photoWidthOf_eq]; push_cast; norm_num
  refine ⟨h1, ?_⟩
  rw [h1]
  have h2 : (3250 / 9 : ℚ) - 3621 / 10 = -(89 / 90) := by norm_num
  rw [h2, abs_neg, abs_of_nonneg (by norm_num)]
  norm_num

/-- C5 amended: on a face box of height 250 at (400, 300, 200, 250),
`estimated_head_height = 325`, `photo_height` is within 0.05 of 464.3,
`photo_width` is within 0.05 of 361.1 (not 362.1), and the crop center
is shifted upward by exactly 75 pixels from the face center (at y = 425)
before boundary clamping. -/
theorem C5_amended :
    estimatedHeadHeight 250 = 325 ∧
    |photoHeightOf 250 - 4643 / 10| < 1 / 20 ∧
    |photoWidthOf 250 - 3611 / 10| < 1 / 20 ∧
    faceOffsetY 250 = 75 ∧
    (faceCenterY 300 250 : ℚ) - cropCenterY 300 250 = 75 ∧
    faceCenterY 300 250 = 425 := by
  refine ⟨by rw [estimatedHeadHeight]; norm_num, ?_, ?_, by rw [faceOffsetY]; norm_num, ?_, by decide⟩
  · rw [photoHeightOf_eq]
    have h2 : (13 * ((250 : ℤ) : ℚ)) / 7 - 4643 / 10 = -(1 / 70) := by push_cast; norm_num
    rw [h2, abs_neg, abs_of_nonneg (by norm_num)]
    norm_num
  · rw [photoWidthOf_eq]
    have h2 : (13 * ((250 : ℤ) : ℚ)) / 9 - 3611 / 10 = 1 / 90 := by push_cast; norm_num
    rw [h2, abs_of_nonneg (by norm_num)]
    norm_num
  · rw [cropCenterY, faceOffsetY]
    push_cast
    ring

/-! ### Output-path computation (claim C9) -/

theorem replaceJpg_nil : replaceJpg [] = [] := by
  simp [replaceJpg]

theorem replaceJpg_cons (c : Char) (rest : List Char) :
    replaceJpg (c :: rest) =
      if c = '.' ∧ rest.take 3 = ['j', 'p', 'g'] then
        printTail ++ replaceJpg (rest.drop 3)
      else c :: replaceJpg rest := by
  simp only [replaceJpg]

/-- The primary output path `photo.png` of the C9 counterexample. -/
def pngPath : List Char := ['p', 'h', 'o', 't', 'o', '.', 'p', 'n', 'g']

/-- C9 counterexample: for the primary output path `photo.png` (which
contains no `.jpg`), `replace('.jpg', '_4x6_print.jpg')` is the
identity, so the print sheet is saved at the primary output path itself
and overwrites the primary photo, contradicting the claim that it never
does. -/
theorem C9_counterexample :
    process_photo_saves pngPath true = [pngPath, pngPath] := by
  have h : replaceJpg pngPath = pngPath := by
    simp [pngPath, replaceJpg_cons, replaceJpg_nil]
  simp [process_photo_saves, h]

/-- C9 amended: when the primary output path is a stem containing no
`.jpg` occurrence followed by the extension `.jpg`, the print sheet is
saved at the stem followed by `_4x6_print.jpg`, which never collides
with the primary path; but for a path with no `.jpg` occurrence at all
the replacement is the identity and the print sheet overwrites the
primary photo (see the counterexample). -/
theorem C9_amended (stem : List Char) (hst : hasJpg stem = false) :
    process_photo_saves (stem ++ jpgTail) true =
      [stem ++ jpgTail, stem ++ printTail] ∧
    stem ++ printTail ≠ stem ++ jpgTail := by
  have key : replaceJpg (stem ++ jpgTail) = stem ++ printTail := by
    induction stem with
    | nil =>
        simp [jpgTail, replaceJpg_cons, replaceJpg_nil]
    | cons c s ih =>
        simp only [hasJpg] at hst
        by_cases hcs : c = '.' ∧ s.take 3 = ['j', 'p', 'g']
        · rw [if_pos hcs] at hst
          exact absurd hst (by simp)
        · rw [if_neg hcs] at hst
          have hjunction : ¬(c = '.' ∧ (s ++ jpgTail).take 3 = ['j', 'p', 'g']) := by
            rintro ⟨hc, htk⟩
            rcases s with _ | ⟨a, _ | ⟨b, _ | ⟨d, t⟩⟩⟩
            · rw [jpgTail] at htk
              exact absurd htk (by decide)
            · rw [jpgTail] at htk
              simp at htk
            · rw [jpgTail] at htk
              simp at htk
            · apply hcs
              refine ⟨hc, ?_⟩
              simp only [List.cons_append] at htk
              simpa using htk
          rw [List.cons_append, replaceJpg_cons, if_neg hjunction, ih hst]
          rfl
  refine ⟨?_, ?_⟩
  · simp [process_photo_saves, key]
  · intro hEq
    exact absurd (List.append_cancel_left hEq) (by decide)

/-- C9 witness: the amended statement at the concrete stem `photo`. -/
theorem C9_amended_witness :
    process_photo_saves (['p', 'h', 'o', 't', 'o'] ++ jpgTail) true =
      [['p', 'h', 'o', 't', 'o'] ++ jpgTail, ['p', 'h', 'o', 't', 'o'] ++ printTail] ∧
    ['p', 'h', 'o', 't', 'o'] ++ printTail ≠ ['p', 'h', 'o', 't', 'o'] ++ jpgTail :=
  C9_amended ['p', 'h', 'o', 't', 'o'] (by decide)

/-! ### Center-fallback crop: integer closed forms and bounds -/

theorem centerCrop_wider (width height : ℤ) (hH : 0 < height)
    (hlt : 413 * height < 531 * width) :
    centerCrop width height =
      ⟨Int.fdiv (width - Int.fdiv (413 * height) 531) 2, 0,
       Int.fdiv (width - Int.fdiv (413 * height) 531) 2 + Int.fdiv (413 * height) 531,
       height⟩ := by
  have hHq : (0 : ℚ) < (height : ℚ) := by exact_mod_cast hH
  have hcond : (width : ℚ) / (height : ℚ) > targetAspect := by
    rw [targetAspect_eq, gt_iff_lt, div_lt_div_iff (by norm_num) hHq]
    have h2 : (413 : ℚ) * (height : ℚ) < (531 : ℚ) * (width : ℚ) := by exact_mod_cast hlt
    linarith
  have hnw : pyInt ((height : ℚ) * targetAspect) = Int.fdiv (413 * height) 531 := by
    rw [targetAspect_eq]
    have hcast : (height : ℚ) * ((413 : ℚ) / 531) = ((413 * height : ℤ) : ℚ) / ((531 : ℤ) : ℚ) := by
      push_cast; ring
    rw [hcast, pyInt_intCast_div _ _ (by omega) (by norm_num)]
  simp only [centerCrop]
  rw [if_pos hcond, hnw]

theorem centerCrop_taller (width height : ℤ) (hW : 0 ≤ width) (hH : 0 < height)
    (hle : 531 * width ≤ 413 * height) :
    centerCrop width height =
      ⟨0, Int.fdiv (height - Int.fdiv (531 * width) 413) 4, width,
       Int.fdiv (height - Int.fdiv (531 * width) 413) 4 + Int.fdiv (531 * width) 413⟩ := by
  have hHq : (0 : ℚ) < (height : ℚ) := by exact_mod_cast hH
  have hcond : ¬((width : ℚ) / (height : ℚ) > targetAspect) := by
    rw [targetAspect_eq, gt_iff_lt, not_lt, div_le_div_iff hHq (by norm_num)]
    have h2 : (531 : ℚ) * (width : ℚ) ≤ (413 : ℚ) * (height : ℚ) := by exact_mod_cast hle
    linarith
  have hnh : pyInt ((width : ℚ) / targetAspect) = Int.fdiv (531 * width) 413 := by
    rw [targetAspect_eq]
    have hcast : (width : ℚ) / ((413 : ℚ) / 531) = ((531 * width : ℤ) : ℚ) / ((413 : ℤ) : ℚ) := by
      push_cast
      rw [div_div_eq_mul_div]
      ring
    rw [hcast, pyInt_intCast_div _ _ (by omega) (by norm_num)]
  simp only [centerCrop]
  rw [if_neg hcond, hnh]

/-- C6: the center-fallback branch computes exactly the claimed
formulas, in integer form.  If the source is relatively wider
(`W/H > aspect_ratio`, i.e. `413*H < 531*W`) the crop has width
`int(H * aspect_ratio) = (413*H) // 531`, is horizontally centered at
`(W - new_width) // 2`, and keeps the full height; if relatively taller,
the crop has height `int(W / aspect_ratio) = (531*W) // 413` and its
vertical offset from the top is `(H - new_height) // 4`. -/
theorem C6_center_formulas (width height : ℤ) (hW : 0 < width) (hH : 0 < height) :
    (413 * height < 531 * width →
      centerCrop width height =
        ⟨Int.fdiv (width - Int.fdiv (413 * height) 531) 2, 0,
         Int.fdiv (width - Int.fdiv (413 * height) 531) 2 + Int.fdiv (413 * height) 531,
         height⟩) ∧
    (531 * width ≤ 413 * height →
      centerCrop width height =
        ⟨0, Int.fdiv (height - Int.fdiv (531 * width) 413) 4, width,
         Int.fdiv (height - Int.fdiv (531 * width) 413) 4 + Int.fdiv (531 * width) 413⟩) :=
  ⟨fun hlt => centerCrop_wider width height hH hlt,
   fun hle => centerCrop_taller width height hW.le hH hle⟩

/-- C6 witness: the spec scenario, a 2000x1000 no-face image: crop width
`int(1000 * aspect_ratio) = 777`, horizontally centered at 611, full
height kept. -/
theorem C6_center_formulas_witness :
    centerCrop 2000 1000 = ⟨611, 0, 1388, 1000⟩ := by
  have h := (C6_center_formulas 2000 1000 (by decide) (by decide)).1 (by decide)
  rw [h]
  decide

/-- C4 counterexample: on a 1x1 source image the center-fallback crop is
`(0, 0, 0, 1)` - a degenerate region of width 0 whose aspect ratio 0 is
not within 1% of the target aspect ratio, contradicting the claim for
arbitrary `W,H > 0`. -/
theorem C4_counterexample :
    centerCrop 1 1 = ⟨0, 0, 0, 1⟩ ∧
    ¬ |((0 : ℚ) / 1) - targetAspect| ≤ targetAspect / 100 := by
  constructor
  · have h := centerCrop_wider 1 1 (by decide) (by decide)
    rw [h]
    decide
  · rw [targetAspect_eq]
    rw [abs_le]
    intro hc
    have := hc.1
    norm_num at this

/-- C4 amended: for sources with `W, H >= 129` (large enough that the
integer truncation of the crop size stays within the tolerance), the
center-fallback crop is fully inside `[0,W] x [0,H]`, non-degenerate,
and its aspect ratio is within 1% of the target; for tiny sources the
integer rounding can break the 1% bound (see the counterexample). -/
theorem C4_amended (width height : ℤ) (hW : 129 ≤ width) (hH : 129 ≤ height) :
    rectInside (centerCrop width height) width height ∧
    (centerCrop width height).x0 < (centerCrop width height).x1 ∧
    (centerCrop width height).y0 < (centerCrop width height).y1 ∧
    |(((centerCrop width height).x1 - (centerCrop width height).x0 : ℤ) : ℚ) /
        (((centerCrop width height).y1 - (centerCrop width height).y0 : ℤ) : ℚ) -
      targetAspect| ≤ targetAspect / 100 := by
  rcases le_or_lt (531 * width) (413 * height) with hle | hlt
  · -- relatively taller source
    rw [centerCrop_taller width height (by omega) (by omega) hle]
    rw [Int.fdiv_eq_ediv (531 * width) (by norm_num : (0 : ℤ) ≤ 413)]
    rw [Int.fdiv_eq_ediv (height - 531 * width / 413) (by norm_num : (0 : ℤ) ≤ 4)]
    simp only [rectInside]
    generalize hnh : 531 * width / 413 = nh
    generalize hcy : (height - nh) / 4 = cy
    refine ⟨⟨by omega, by omega, by omega, by omega⟩, by omega, by omega, ?_⟩
    rw [targetAspect_eq]
    have hx : width - (0 : ℤ) = width := by ring
    have hy : cy + nh - cy = nh := by ring
    rw [hx, hy]
    have hnh1 : 413 * nh ≤ 531 * width := by omega
    have hnh2 : 531 * width < 413 * nh + 413 := by omega
    have hnh3 : 100 ≤ nh := by omega
    have hnhQ : (0 : ℚ) < (nh : ℚ) := by exact_mod_cast (by omega : (0 : ℤ) < nh)
    have q1 : (413 : ℚ) * (nh : ℚ) ≤ 531 * (width : ℚ) := by exact_mod_cast hnh1
    have q2 : (531 : ℚ) * (width : ℚ) < 413 * (nh : ℚ) + 413 := by exact_mod_cast hnh2
    have q3 : (100 : ℚ) ≤ (nh : ℚ) := by exact_mod_cast hnh3
    have key1 : (413 : ℚ) / 531 ≤ (width : ℚ) / (nh : ℚ) := by
      rw [div_le_div_iff (by norm_num) hnhQ]
      linarith
    have key2 : (width : ℚ) / (nh : ℚ) ≤ 41713 / 53100 := by
      rw [div_le_iff hnhQ]
      linarith
    rw [abs_le]
    constructor <;> linarith
  · -- relatively wider source
    rw [centerCrop_wider width height (by omega) hlt]
    rw [Int.fdiv_eq_ediv (413 * height) (by norm_num : (0 : ℤ) ≤ 531)]
    rw [Int.fdiv_eq_ediv (width - 413 * height / 531) (by norm_num : (0 : ℤ) ≤ 2)]
    simp only [rectInside]
    generalize hnw : 413 * height / 531 = nw
    generalize hcx : (width - nw) / 2 = cx
    refine ⟨⟨by omega, by omega, by omega, by omega⟩, by omega, by omega, ?_⟩
    rw [targetAspect_eq]
    have hx : cx + nw - cx = nw := by ring
    have hy : height - (0 : ℤ) = height := by ring
    rw [hx, hy]
    have hnw1 : 531 * nw ≤ 413 * height := by omega
    have hnw2 : 413 * height < 531 * nw + 531 := by omega
    have hHQ : (0 : ℚ) < (height : ℚ) := by exact_mod_cast (by omega : (0 : ℤ) < height)
    have q1 : (531 : ℚ) * (nw : ℚ) ≤ 413 * (height : ℚ) := by exact_mod_cast hnw1
    have q2 : (413 : ℚ) * (height : ℚ) < 531 * (nw : ℚ) + 531 := by exact_mod_cast hnw2
    have key1 : (nw : ℚ) / (height : ℚ) ≤ 413 / 531 := by
      rw [div_le_div_iff hHQ (by norm_num)]
      linarith
    have key2 : (40887 : ℚ) / 53100 ≤ (nw : ℚ) / (height : ℚ) := by
      rw [le_div_iff hHQ]
      have q4 : (129 : ℚ) ≤ (height : ℚ) := by exact_mod_cast hH
      linarith
    rw [abs_le]
    constructor <;> linarith

/-! ### Face-anchored crop: non-error branch and bounds -/

theorem faceCrop_ok (width height : ℤ) (fb : FaceBox)
    (hfitW : photoWidthOf fb.h ≤ (width : ℚ)) (hfitH : photoHeightOf fb.h ≤ (height : ℚ)) :
    faceCrop width height fb =
      Except.ok
        ⟨pyInt (max 0 (min ((faceCenterX fb.x fb.w : ℚ) - photoWidthOf fb.h / 2)
            ((width : ℚ) - photoWidthOf fb.h))),
         pyInt (max 0 (min (cropCenterY fb.y fb.h - photoHeightOf fb.h / 2)
            ((height : ℚ) - photoHeightOf fb.h))),
         pyInt (max 0 (min ((faceCenterX fb.x fb.w : ℚ) - photoWidthOf fb.h / 2)
            ((width : ℚ) - photoWidthOf fb.h)) + photoWidthOf fb.h),
         pyInt (max 0 (min (cropCenterY fb.y fb.h - photoHeightOf fb.h / 2)
            ((height : ℚ) - photoHeightOf fb.h)) + photoHeightOf fb.h)⟩ := by
  simp only [faceCrop]
  rw [if_neg]
  rw [not_or]
  exact ⟨not_lt.2 hfitW, not_lt.2 hfitH⟩

/-- Key bounds for one axis of the face-anchored crop: clamping the
ideal origin into `[0, L - p]` and truncating both ends to integers
yields endpoints inside `[0, L]` whose distance is within 1 of `p`. -/
theorem clampInterval (L : ℤ) (q0 p : ℚ) (hp : 0 < p) (hfit : p ≤ (L : ℚ)) :
    0 ≤ pyInt (max 0 (min q0 ((L : ℚ) - p))) ∧
    pyInt (max 0 (min q0 ((L : ℚ) - p)) + p) ≤ L ∧
    p - 1 < ((pyInt (max 0 (min q0 ((L : ℚ) - p)) + p) -
        pyInt (max 0 (min q0 ((L : ℚ) - p))) : ℤ) : ℚ) ∧
    ((pyInt (max 0 (min q0 ((L : ℚ) - p)) + p) -
        pyInt (max 0 (min q0 ((L : ℚ) - p))) : ℤ) : ℚ) < p + 1 := by
  generalize hq : max 0 (min q0 ((L : ℚ) - p)) = q
  have hq0 : 0 ≤ q := by rw [← hq]; exact le_max_left _ _
  have hqL : q ≤ (L : ℚ) - p := by
    rw [← hq]
    exact max_le (by linarith) (min_le_right _ _)
  rw [pyInt_of_nonneg hq0, pyInt_of_nonneg (by linarith : (0 : ℚ) ≤ q + p)]
  have f1 : ((⌊q⌋ : ℤ) : ℚ) ≤ q := Int.floor_le q
  have f2 : q - 1 < ((⌊q⌋ : ℤ) : ℚ) := Int.sub_one_lt_floor q
  have f3 : ((⌊q + p⌋ : ℤ) : ℚ) ≤ q + p := Int.floor_le _
  have f4 : q + p - 1 < ((⌊q + p⌋ : ℤ) : ℚ) := Int.sub_one_lt_floor _
  refine ⟨Int.floor_nonneg.2 hq0, ?_, ?_, ?_⟩
  · have h5 : ⌊q + p⌋ ≤ ⌊(L : ℚ)⌋ := Int.floor_le_floor (by linarith)
    rwa [Int.floor_intCast] at h5
  · push_cast
    linarith
  · push_cast
    linarith

/-- C2 counterexample: on a 10x10 image with the valid face box
`(0, 0, 1, 1)` the face-anchored branch returns the crop `(0, 0, 1, 1)`,
whose aspect ratio 1 is not within 1% of the target aspect ratio: the
integer truncation of a tiny ideal crop (about 1.44 x 1.86) breaks the
claimed tolerance. -/
theorem C2_counterexample :
    faceCrop 10 10 ⟨0, 0, 1, 1⟩ = Except.ok ⟨0, 0, 1, 1⟩ ∧
    ¬ |((1 : ℚ) / (1 : ℚ)) - targetAspect| ≤ targetAspect / 100 := by
  constructor
  · have hW : photoWidthOf (1 : ℤ) = 13 / 9 := by
      rw [photoWidthOf_eq]; push_cast; norm_num
    have hH : photoHeightOf (1 : ℤ) = 13 / 7 := by
      rw [photoHeightOf_eq]; push_cast; norm_num
    rw [faceCrop_ok 10 10 ⟨0, 0, 1, 1⟩ (by rw [hW]; norm_num) (by rw [hH]; norm_num)]
    have hfcx : faceCenterX 0 1 = 0 := by decide
    have hfcy : faceCenterY 0 1 = 0 := by decide
    have hccy : cropCenterY 0 1 = -(3 / 10) := by
      rw [cropCenterY, hfcy, faceOffsetY]; push_cast; norm_num
    dsimp only
    rw [hfcx, hccy, hW, hH]
    have e1 : max (0 : ℚ) (min (((0 : ℤ) : ℚ) - 13 / 9 / 2) (((10 : ℤ) : ℚ) - 13 / 9)) = 0 := by
      rw [max_eq_left]
      apply min_le_of_left_le
      push_cast
      norm_num
    have e2 : max (0 : ℚ) (min (-(3 / 10) - 13 / 7 / 2) (((10 : ℤ) : ℚ) - 13 / 7)) = 0 := by
      rw [max_eq_left]
      apply min_le_of_left_le
      norm_num
    rw [e1, e2]
    have p1 : pyInt 0 = 0 := by rw [pyInt_of_nonneg le_rfl]; exact Int.floor_zero
    have p2 : pyInt ((0 : ℚ) + 13 / 9) = 1 := by
      rw [pyInt_of_nonneg (by norm_num)]; norm_num
    have p3 : pyInt ((0 : ℚ) + 13 / 7) = 1 := by
      rw [pyInt_of_nonneg (by norm_num)]; norm_num
    rw [p1, p2, p3]
  · rw [targetAspect_eq, abs_le]
    intro hc
    have := hc.2
    norm_num at this

/-- C2 amended: for every valid face box whose ideal face-anchored crop
fits inside the source (`photo_width <= W`, `photo_height <= H`, so the
broken scale-down branch is not reached) and whose face height is at
least 124 pixels (so that truncating the crop to whole pixels cannot
move its aspect ratio by more than 1%), the face-anchored branch
returns a crop fully inside `[0,W] x [0,H]`, non-degenerate, with
aspect ratio within 1% of the target.  For smaller faces the rounding
can break the tolerance (see the counterexample), and when the ideal
crop does not fit the branch raises `NameError` instead of returning. -/
theorem C2_amended (width height x y w h : ℤ)
    (hW : 0 < width) (hH : 0 < height) (hw : 0 < w) (hh : 124 ≤ h)
    (hx : 0 ≤ x) (hy : 0 ≤ y) (hxw : x + w ≤ width) (hyh : y + h ≤ height)
    (hfitW : photoWidthOf h ≤ (width : ℚ)) (hfitH : photoHeightOf h ≤ (height : ℚ)) :
    ∃ r : Rect, faceCrop width height ⟨x, y, w, h⟩ = Except.ok r ∧
      rectInside r width height ∧ r.x0 < r.x1 ∧ r.y0 < r.y1 ∧
      |((r.x1 - r.x0 : ℤ) : ℚ) / ((r.y1 - r.y0 : ℤ) : ℚ) - targetAspect| ≤
        targetAspect / 100 := by
  have hhQ : (124 : ℚ) ≤ (h : ℚ) := by exact_mod_cast hh
  have hpw : photoWidthOf h = 13 * (h : ℚ) / 9 := by rw [photoWidthOf_eq]
  have hph : photoHeightOf h = 13 * (h : ℚ) / 7 := by rw [photoHeightOf_eq]
  have hpw_pos : 0 < photoWidthOf h := by rw [hpw]; linarith
  have hph_pos : 0 < photoHeightOf h := by rw [hph]; linarith
  rw [faceCrop_ok width height ⟨x, y, w, h⟩ hfitW hfitH]
  obtain ⟨hx0, hx1, hwlo, hwhi⟩ :=
    clampInterval width ((faceCenterX x w : ℚ) - photoWidthOf h / 2)
      (photoWidthOf h) hpw_pos hfitW
  obtain ⟨hy0, hy1, hhlo, hhhi⟩ :=
    clampInterval height (cropCenterY y h - photoHeightOf h / 2)
      (photoHeightOf h) hph_pos hfitH
  set a0 : ℤ := pyInt (max 0 (min ((faceCenterX x w : ℚ) - photoWidthOf h / 2)
      ((width : ℚ) - photoWidthOf h))) with ha0
  set a1 : ℤ := pyInt (max 0 (min ((faceCenterX x w : ℚ) - photoWidthOf h / 2)
      ((width : ℚ) - photoWidthOf h)) + photoWidthOf h) with ha1
  set b0 : ℤ := pyInt (max 0 (min (cropCenterY y h - photoHeightOf h / 2)
      ((height : ℚ) - photoHeightOf h))) with hb0
  set b1 : ℤ := pyInt (max 0 (min (cropCenterY y h - photoHeightOf h / 2)
      ((height : ℚ) - photoHeightOf h)) + photoHeightOf h) with hb1
  rw [hpw] at hwlo hwhi
  rw [hph] at hhlo hhhi
  have hApos : (0 : ℤ) < a1 - a0 := by
    have : (0 : ℚ) < ((a1 - a0 : ℤ) : ℚ) := by linarith
    exact_mod_cast this
  have hBpos : (0 : ℤ) < b1 - b0 := by
    have : (0 : ℚ) < ((b1 - b0 : ℤ) : ℚ) := by linarith
    exact_mod_cast this
  have hBposQ : (0 : ℚ) < ((b1 - b0 : ℤ) : ℚ) := by exact_mod_cast hBpos
  refine ⟨_, rfl, ⟨hx0, hy0, hx1, hy1⟩, sub_pos.mp hApos, sub_pos.mp hBpos, ?_⟩
  rw [targetAspect_eq, abs_le]
  have key1 : (40887 : ℚ) / 53100 ≤ ((a1 - a0 : ℤ) : ℚ) / ((b1 - b0 : ℤ) : ℚ) := by
    rw [le_div_iff hBposQ]
    linarith
  have key2 : ((a1 - a0 : ℤ) : ℚ) / ((b1 - b0 : ℤ) : ℚ) ≤ (41713 : ℚ) / 53100 := by
    rw [div_le_iff hBposQ]
    linarith
  constructor <;> linarith

/-- C2 witness: the amended statement at a 2000x2000 source with face
box (500, 500, 300, 300). -/
theorem C2_amended_witness :
    ∃ r : Rect, faceCrop 2000 2000 ⟨500, 500, 300, 300⟩ = Except.ok r ∧
      rectInside r 2000 2000 ∧ r.x0 < r.x1 ∧ r.y0 < r.y1 ∧
      |((r.x1 - r.x0 : ℤ) : ℚ) / ((r.y1 - r.y0 : ℤ) : ℚ) - targetAspect| ≤
        targetAspect / 100 :=
  C2_amended 2000 2000 500 500 300 300 (by decide) (by decide) (by decide) (by decide)
    (by decide) (by decide) (by decide) (by decide)
    (by rw [photoWidthOf_eq]; push_cast; norm_num)
    (by rw [photoHeightOf_eq]; push_cast; norm_num)

/-- C4 witness: the amended statement at a concrete 2000x1000 source. -/
theorem C4_amended_witness :
    rectInside (centerCrop 2000 1000) 2000 1000 ∧
    (centerCrop 2000 1000).x0 < (centerCrop 2000 1000).x1 ∧
    (centerCrop 2000 1000).y0 < (centerCrop 2000 1000).y1 ∧
    |(((centerCrop 2000 1000).x1 - (centerCrop 2000 1000).x0 : ℤ) : ℚ) /
        (((centerCrop 2000 1000).y1 - (centerCrop 2000 1000).y0 : ℤ) : ℚ) -
      targetAspect| ≤ targetAspect / 100 :=
  C4_amended 2000 1000 (by decide) (by decide)

end VisaPhoto
